import Mathlib

/-!
# Verification of the LLM usage/cost accounting layer (`src/llm.py`)

Shallow embedding of the cost calculator, the usage ledger and the two
completion clients of `src/llm.py`, together with theorems settling the
frozen claims about them.

Modelling conventions:
* Python floats are modelled by exact rationals (`ℚ`); token counts and
  latencies are Python `int`s, modelled by `ℤ`.
* A raised exception is modelled by `Except LlmError`; the bare
  `Exception` raised on refusal and the `ValueError` raised by
  `calculate_cost` are distinguished by constructor.
* The log file `llm_usage_log.csv` is modelled as `Option (List Row)`:
  `none` means the file does not exist, `some rows` is its list of CSV
  rows (a row is the list of its fields; CSV quoting is abstracted).
* The remote LLM service is an external collaborator; it is modelled as
  an oracle giving, per attempt, the outcome of the remote call
  (exception, refusal, or a parsed response with token usage).  Wall
  clock readings (`datetime.now`, latency measurement) also come from
  the oracle, and `asyncio.sleep` has no effect on any modelled state.
-/

namespace Llm

/-- A per-model pricing entry: dollars per million input/output tokens. -/
structure Pricing where
  input : ℚ
  output : ℚ
  deriving DecidableEq, Repr

/-- The static pricing table `MODEL_PRICING` of `llm.py` (a Python dict,
modelled as a lookup function `model ↦ entry`). -/
def MODEL_PRICING : String → Option Pricing := fun model =>
  if model = "gpt-4o-mini" then some ⟨0.15, 0.60⟩
  else if model = "gpt-4.1-mini" then some ⟨0.40, 1.60⟩
  else if model = "gpt-4.1-nano" then some ⟨0.10, 0.40⟩
  else if model = "gpt-4.1" then some ⟨2.00, 8.00⟩
  else none

/-- The error kinds that `llm.py` can raise.  `unknownModel` is the
`ValueError` of `calculate_cost`; `refusal` is the `Exception` raised in
`get_completion_structured` when the provider reports a refusal;
`remote` and `validation` model exceptions escaping the remote call
itself (network/service failure, schema-validation failure such as
`LengthFinishReasonError`). -/
inductive LlmError where
  | unknownModel (model : String)
  | refusal (msg : String)
  | remote (msg : String)
  | validation (msg : String)
  deriving DecidableEq, Repr

/-- `calculate_cost(model, input_tokens, output_tokens)`: raises
`ValueError` for a model absent from `MODEL_PRICING`, otherwise returns
`(input_cost, output_cost, total_cost)` with
`input_cost = input_tokens / 1_000_000 * pricing["input"]`, etc. -/
def calculate_cost (model : String) (input_tokens output_tokens : ℤ) :
    Except LlmError (ℚ × ℚ × ℚ) :=
  match MODEL_PRICING model with
  | none => .error (.unknownModel model)
  | some pricing =>
    let input_cost : ℚ := ((input_tokens : ℚ) / 1000000) * pricing.input
    let output_cost : ℚ := ((output_tokens : ℚ) / 1000000) * pricing.output
    let total_cost : ℚ := input_cost + output_cost
    .ok (input_cost, output_cost, total_cost)

/-- One CSV row: the list of its fields. -/
abbrev Row := List String

/-- The state of `llm_usage_log.csv`: `none` when the file does not
exist, `some rows` when it exists with the given rows. -/
abbrev LogFile := Option (List Row)

/-- `clear_llm_log()`: unlink the log file if it exists. -/
def clear_llm_log (log_file : LogFile) : LogFile :=
  match log_file with
  | some _ => none
  | none => none

/-- The fixed header row written by `log_llm_call` when the file does
not yet exist. -/
def headerRow : Row :=
  ["timestamp", "model", "function_name", "input_content",
   "output_content", "input_tokens", "output_tokens", "total_tokens",
   "latency_ms", "input_cost", "output_cost", "total_cost"]

/-- The header-creation step of `log_llm_call`: if the file does not
exist, create it containing just the header row. -/
def ensureHeader (log_file : LogFile) : LogFile :=
  match log_file with
  | none => some [headerRow]
  | some rows => some rows

/-- Round a rational to the nearest integer, ties to even — the rounding
used by Python `format` for a fixed-point conversion. -/
def roundHalfEven (x : ℚ) : ℤ :=
  let f : ℤ := x.num.fdiv (x.den : ℤ)
  let r : ℚ := x - (f : ℚ)
  if r < 1 / 2 then f
  else if 1 / 2 < r then f + 1
  else if f % 2 = 0 then f else f + 1

/-- The six fractional digits of a fixed 6-decimal-place rendering, for
`n < 1000000`: exactly six characters, zero-padded. -/
def sixFracDigits (n : ℕ) : String :=
  String.mk [Nat.digitChar (n / 100000 % 10), Nat.digitChar (n / 10000 % 10),
             Nat.digitChar (n / 1000 % 10), Nat.digitChar (n / 100 % 10),
             Nat.digitChar (n / 10 % 10), Nat.digitChar (n % 10)]

/-- Python `f"{x:.6f}"` on the exact value `x`: sign, integer part, a
dot, then exactly six fractional digits. -/
def formatFixed6 (x : ℚ) : String :=
  let n : ℤ := roundHalfEven (x * 1000000)
  (if n < 0 then "-" else "") ++ toString (n.natAbs / 1000000) ++ "." ++
    sixFracDigits (n.natAbs % 1000000)

/-- The arguments of `log_llm_call` plus the `datetime.now().isoformat()`
timestamp read at log-write time. -/
structure LogArgs where
  timestamp : String
  model : String
  function_name : String
  input_content : String
  output_content : String
  input_tokens : ℤ
  output_tokens : ℤ
  latency_ms : ℤ
  deriving DecidableEq, Repr

/-- The data row appended by `log_llm_call` for one call, given the
three computed costs: the twelve fields in the fixed column order, costs
rendered with `f"{cost:.6f}"`. -/
def usageRow (a : LogArgs) (input_cost output_cost total_cost : ℚ) : Row :=
  [a.timestamp, a.model, a.function_name, a.input_content,
   a.output_content, toString a.input_tokens, toString a.output_tokens,
   toString (a.input_tokens + a.output_tokens), toString a.latency_ms,
   formatFixed6 input_cost, formatFixed6 output_cost,
   formatFixed6 total_cost]

/-- `log_llm_call(...)`: create the header if the file does not exist,
then compute costs (which may raise `ValueError`), then append the data
row.  Returns the new file state together with the outcome; on a raise,
the file keeps whatever was already written. -/
def log_llm_call (a : LogArgs) (log_file : LogFile) :
    LogFile × Except LlmError Unit :=
  let log_file1 := ensureHeader log_file
  match calculate_cost a.model a.input_tokens a.output_tokens with
  | .error e => (log_file1, .error e)
  | .ok (input_cost, output_cost, total_cost) =>
    match log_file1 with
    | none => (some [usageRow a input_cost output_cost total_cost], .ok ())
    | some rows =>
      (some (rows ++ [usageRow a input_cost output_cost total_cost]), .ok ())

/-- The file state after a successful `log_llm_call` on file
`log_file`: header ensured, then the data row appended.  (The `none`
branch is unreachable: `ensureHeader` never returns `none`.) -/
def appendRow (log_file : LogFile) (row : Row) : LogFile :=
  match ensureHeader log_file with
  | none => some [row]
  | some rows => some (rows ++ [row])

/-- Token usage reported by the remote service. -/
structure Usage where
  prompt_tokens : ℤ
  completion_tokens : ℤ
  deriving DecidableEq, Repr

/-- The outcome of the remote call of `get_completion` (an external
collaborator): either the awaited call raises, or it returns content and
usage.  The timestamp and measured latency of the call are supplied
alongside. -/
structure PlainRemote where
  content : String
  usage : Usage
  deriving DecidableEq, Repr

/-- `get_completion(message, model)`: issue the remote call; on success
log the call with `function_name = "get_completion"` and return the
content; a remote failure propagates with nothing logged.  `remote` is
the oracle for the remote call, `ts`/`latency_ms` the clock readings. -/
def get_completion (message : String) (model : String)
    (remote : Except LlmError PlainRemote) (ts : String) (latency_ms : ℤ)
    (log_file : LogFile) : LogFile × Except LlmError String :=
  match remote with
  | .error e => (log_file, .error e)
  | .ok resp =>
    let (log_file1, r) := log_llm_call
      ⟨ts, model, "get_completion", message, resp.content,
       resp.usage.prompt_tokens, resp.usage.completion_tokens, latency_ms⟩
      log_file
    match r with
    | .error e => (log_file1, .error e)
    | .ok _ => (log_file1, .ok resp.content)

/-- The outcome of one attempt's remote `parse` call in
`get_completion_structured`: either the awaited call raises (`exn`), or
it returns a response carrying an optional refusal, the parsed value,
the usage, and the clock readings (timestamp at log time, latency). -/
inductive AttemptOutcome (T : Type) where
  | exn (e : LlmError)
  | response (refusal : Option String) (parsed : T) (usage : Usage)
      (ts : String) (latency_ms : ℤ)

/-- The body of one attempt of `get_completion_structured` (the `try`
block): raise on a raised remote call; raise `Exception(refusal)` when a
refusal is reported; otherwise log the call (which may itself raise) and
return the parsed value.  `render` models `str(parsed_response)`. -/
def runAttempt {T : Type} (message function_name model : String)
    (render : T → String) (a : AttemptOutcome T) (log_file : LogFile) :
    LogFile × Except LlmError T :=
  match a with
  | .exn e => (log_file, .error e)
  | .response (some msg) _ _ _ _ => (log_file, .error (.refusal msg))
  | .response none parsed usage ts latency_ms =>
    let (log_file1, r) := log_llm_call
      ⟨ts, model, function_name, message, render parsed,
       usage.prompt_tokens, usage.completion_tokens, latency_ms⟩
      log_file
    match r with
    | .error e => (log_file1, .error e)
    | .ok _ => (log_file1, .ok parsed)

/-- The retry loop of `get_completion_structured`: run attempt number
`attempt`; on success return, on failure retry while attempts remain
(`remaining > 0`, i.e. `attempt < max_retries`, after sleeping
`retry_delay`, which touches no modelled state), else re-raise the last
failure.  `outcome n` is the oracle for attempt `n`'s remote call. -/
def structuredGo {T : Type} (message function_name model : String)
    (render : T → String) (outcome : ℕ → AttemptOutcome T)
    (attempt : ℕ) : ℕ → LogFile → LogFile × Except LlmError T
  | remaining, log_file =>
    let (log_file1, r) :=
      runAttempt message function_name model render (outcome attempt) log_file
    match r with
    | .ok v => (log_file1, .ok v)
    | .error e =>
      match remaining with
      | 0 => (log_file1, .error e)
      | remaining' + 1 =>
        structuredGo message function_name model render outcome
          (attempt + 1) remaining' log_file1

/-- `get_completion_structured(message, response_model, function_name,
model, ..., max_retries, ...)`: `for attempt in range(max_retries + 1)`
around `runAttempt`.  Request-shaping arguments that only flow to the
remote service (`max_completion_tokens`) are absorbed into the oracle. -/
def get_completion_structured {T : Type} (message function_name model : String)
    (render : T → String) (outcome : ℕ → AttemptOutcome T)
    (max_retries : ℕ) (log_file : LogFile) : LogFile × Except LlmError T :=
  structuredGo message function_name model render outcome 0 max_retries log_file

/-- The failure, if any, that attempt `a` produces under model `model`:
a raised remote call or refusal fails with that error, and a parsed
response fails exactly when the model is unknown (the `ValueError` from
`calculate_cost` inside the logging step).  The outcome of an attempt
does not depend on the file state. -/
def attemptError {T : Type} (model : String) (a : AttemptOutcome T) :
    Option LlmError :=
  match a with
  | .exn e => some e
  | .response (some msg) _ _ _ _ => some (.refusal msg)
  | .response none _ _ _ _ =>
    match MODEL_PRICING model with
    | none => some (.unknownModel model)
    | some _ => none

end Llm

namespace Llm

/-! ## Helper lemmas -/

/-- Every entry of the pricing table has strictly positive prices. -/
lemma pricing_pos {model : String} {p : Pricing}
    (h : MODEL_PRICING model = some p) : 0 < p.input ∧ 0 < p.output := by
  unfold MODEL_PRICING at h
  split_ifs at h <;> (injection h with h; subst h) <;> norm_num

/-- `calculate_cost` on a model present in the pricing table. -/
lemma calculate_cost_known {model : String} {p : Pricing}
    (h : MODEL_PRICING model = some p) (it ot : ℤ) :
    calculate_cost model it ot =
      .ok ((it : ℚ) / 1000000 * p.input, (ot : ℚ) / 1000000 * p.output,
           (it : ℚ) / 1000000 * p.input + (ot : ℚ) / 1000000 * p.output) := by
  unfold calculate_cost
  rw [h]

end Llm

namespace Llm

/-! ## Claim C5 -/

/-- C5: for every model_id absent from the pricing table and every pair
of token counts (including zero), `calculate_cost` fails with the
unknown-model error — it never falls back to default pricing and never
returns a silent zero-cost result. -/
theorem calculate_cost_unknown_model (model : String)
    (h : MODEL_PRICING model = none) (input_tokens output_tokens : ℤ) :
    calculate_cost model input_tokens output_tokens =
      .error (.unknownModel model) := by
  unfold calculate_cost
  rw [h]

/-- Witness for C5 at a concrete unknown model and zero token counts. -/
theorem calculate_cost_unknown_model_witness :
    calculate_cost "claude-3-opus" 0 0 =
      .error (.unknownModel "claude-3-opus") :=
  calculate_cost_unknown_model "claude-3-opus" (by rfl) 0 0

/-! ## Claim C6 -/

/-- C6: `calculate_cost` computes
`input_cost = input_tokens / 1_000_000 * price.input`,
`output_cost = output_tokens / 1_000_000 * price.output` and
`total_cost = input_cost + output_cost`; in particular for
`"gpt-4o-mini"` (prices 0.15 / 0.60 per million) with 1000 input and
500 output tokens it returns (0.00015, 0.00030, 0.00045). -/
theorem calculate_cost_formula :
    (∀ (model : String) (p : Pricing) (it ot : ℤ),
       MODEL_PRICING model = some p →
       calculate_cost model it ot =
         .ok ((it : ℚ) / 1000000 * p.input, (ot : ℚ) / 1000000 * p.output,
              (it : ℚ) / 1000000 * p.input + (ot : ℚ) / 1000000 * p.output)) ∧
    calculate_cost "gpt-4o-mini" 1000 500 =
      .ok (0.00015, 0.00030, 0.00045) := by
  constructor
  · intro model p it ot h
    exact calculate_cost_known h it ot
  · norm_num [calculate_cost, MODEL_PRICING]

/-- Witness for C6: the general formula applied at the concrete scenario
of the claim. -/
theorem calculate_cost_formula_witness :
    MODEL_PRICING "gpt-4o-mini" = some ⟨0.15, 0.60⟩ ∧
    calculate_cost "gpt-4o-mini" 1000 500 =
      .ok ((1000 : ℚ) / 1000000 * (0.15 : ℚ),
           (500 : ℚ) / 1000000 * (0.60 : ℚ),
           (1000 : ℚ) / 1000000 * (0.15 : ℚ) +
             (500 : ℚ) / 1000000 * (0.60 : ℚ)) :=
  ⟨by rfl, calculate_cost_formula.1 "gpt-4o-mini" ⟨0.15, 0.60⟩ 1000 500 (by rfl)⟩

/-! ## Claim C9 -/

/-- C9: when the remote call inside `get_completion` fails, no
UsageRecord is appended (the log file is unchanged) and the original
failure propagates to the caller unchanged — not wrapped, not swallowed,
never retried. -/
theorem get_completion_remote_failure (message model ts : String)
    (latency_ms : ℤ) (e : LlmError) (log_file : LogFile) :
    get_completion message model (.error e) ts latency_ms log_file =
      (log_file, .error e) :=
  rfl

end Llm

namespace Llm

/-! ## Claim C7 -/

/-- C7: for every model in the pricing table and all non-negative token
counts, `calculate_cost` succeeds with `total_cost = input_cost +
output_cost`, both costs non-negative, and each cost monotonically
non-decreasing in its respective token count. -/
theorem calculate_cost_additive_monotone (model : String) (p : Pricing)
    (hp : MODEL_PRICING model = some p) (it ot it' ot' : ℤ)
    (hit : 0 ≤ it) (hot : 0 ≤ ot) (hit' : it ≤ it') (hot' : ot ≤ ot') :
    ∃ ic oc tc ic' oc' tc' : ℚ,
      calculate_cost model it ot = .ok (ic, oc, tc) ∧
      calculate_cost model it' ot' = .ok (ic', oc', tc') ∧
      tc = ic + oc ∧ 0 ≤ ic ∧ 0 ≤ oc ∧ ic ≤ ic' ∧ oc ≤ oc' := by
  obtain ⟨hpi, hpo⟩ := pricing_pos hp
  refine ⟨_, _, _, _, _, _, calculate_cost_known hp it ot,
          calculate_cost_known hp it' ot', rfl, ?_, ?_, ?_, ?_⟩
  · have : (0 : ℚ) ≤ (it : ℚ) := by exact_mod_cast hit
    positivity
  · have : (0 : ℚ) ≤ (ot : ℚ) := by exact_mod_cast hot
    positivity
  · have h1 : (it : ℚ) ≤ (it' : ℚ) := by exact_mod_cast hit'
    gcongr
  · have h1 : (ot : ℚ) ≤ (ot' : ℚ) := by exact_mod_cast hot'
    gcongr

/-- Witness for C7 at model "gpt-4.1", tokens (1000, 500) ≤ (2000, 800). -/
theorem calculate_cost_additive_monotone_witness :
    ∃ ic oc tc ic' oc' tc' : ℚ,
      calculate_cost "gpt-4.1" 1000 500 = .ok (ic, oc, tc) ∧
      calculate_cost "gpt-4.1" 2000 800 = .ok (ic', oc', tc') ∧
      tc = ic + oc ∧ 0 ≤ ic ∧ 0 ≤ oc ∧ ic ≤ ic' ∧ oc ≤ oc' :=
  calculate_cost_additive_monotone "gpt-4.1" ⟨2.00, 8.00⟩ (by rfl)
    1000 500 2000 800 (by decide) (by decide) (by decide) (by decide)

/-! ## Claim C10 -/

/-- C10: for every model in the pricing table, `calculate_cost` is total
over all integer token counts including negative ones — it raises only
for unknown models — and a negative input (resp. output) token count
yields a negative corresponding cost rather than being rejected. -/
theorem calculate_cost_total_on_integers (model : String) (p : Pricing)
    (hp : MODEL_PRICING model = some p) (it ot : ℤ) :
    ∃ ic oc tc : ℚ,
      calculate_cost model it ot = .ok (ic, oc, tc) ∧
      (it < 0 → ic < 0) ∧ (ot < 0 → oc < 0) := by
  obtain ⟨hpi, hpo⟩ := pricing_pos hp
  refine ⟨_, _, _, calculate_cost_known hp it ot, ?_, ?_⟩
  · intro h
    have h1 : (it : ℚ) < 0 := by exact_mod_cast h
    have h2 : (it : ℚ) / 1000000 < 0 := by
      apply div_neg_of_neg_of_pos h1
      norm_num
    exact mul_neg_of_neg_of_pos h2 hpi
  · intro h
    have h1 : (ot : ℚ) < 0 := by exact_mod_cast h
    have h2 : (ot : ℚ) / 1000000 < 0 := by
      apply div_neg_of_neg_of_pos h1
      norm_num
    exact mul_neg_of_neg_of_pos h2 hpo

/-- Witness for C10 at model "gpt-4.1-nano" with negative token counts. -/
theorem calculate_cost_total_on_integers_witness :
    (-5 : ℤ) < 0 ∧
    ∃ ic oc tc : ℚ,
      calculate_cost "gpt-4.1-nano" (-5) (-7) = .ok (ic, oc, tc) ∧
      ((-5 : ℤ) < 0 → ic < 0) ∧ ((-7 : ℤ) < 0 → oc < 0) :=
  ⟨by decide,
   calculate_cost_total_on_integers "gpt-4.1-nano" ⟨0.10, 0.40⟩ (by rfl) (-5) (-7)⟩

end Llm

namespace Llm

/-! ## Ledger lemmas -/

/-- `ensureHeader` is idempotent. -/
lemma ensureHeader_idem (log_file : LogFile) :
    ensureHeader (ensureHeader log_file) = ensureHeader log_file := by
  cases log_file <;> rfl

/-- `clear_llm_log` always leaves the file nonexistent. -/
lemma clear_llm_log_eq_none (log_file : LogFile) :
    clear_llm_log log_file = none := by
  cases log_file <;> rfl

/-- `log_llm_call` on an unknown model: the header-creation step has
already run when `calculate_cost` raises, so the file is left at
`ensureHeader` and the `ValueError` propagates. -/
lemma log_llm_call_unknown (a : LogArgs) (log_file : LogFile)
    (h : MODEL_PRICING a.model = none) :
    log_llm_call a log_file =
      (ensureHeader log_file, .error (.unknownModel a.model)) := by
  unfold log_llm_call calculate_cost
  rw [h]

/-- `log_llm_call` on a known model appends exactly one data row, built
from the computed costs. -/
lemma log_llm_call_known (a : LogArgs) (log_file : LogFile) (p : Pricing)
    (h : MODEL_PRICING a.model = some p) :
    log_llm_call a log_file =
      (appendRow log_file
         (usageRow a ((a.input_tokens : ℚ) / 1000000 * p.input)
            ((a.output_tokens : ℚ) / 1000000 * p.output)
            ((a.input_tokens : ℚ) / 1000000 * p.input +
             (a.output_tokens : ℚ) / 1000000 * p.output)),
       .ok ()) := by
  unfold log_llm_call calculate_cost appendRow
  rw [h]
  cases log_file <;> rfl

end Llm

namespace Llm

/-! ## Claim C2 -/

/-- C2 counterexample: an append on a nonexistent file whose cost
calculation fails (unknown model) does NOT leave the log file unchanged
— it leaves exactly the header row and no record row, refuting the
claimed all-or-nothing behaviour. -/
theorem log_llm_call_partial_write_cex :
    log_llm_call ⟨"t", "bad-model", "f", "in", "out", 1, 1, 0⟩ none =
      (some [headerRow], .error (.unknownModel "bad-model")) ∧
    some [headerRow] ≠ (none : LogFile) := by
  constructor
  · rfl
  · simp

/-- C2 amended: when `log_llm_call` is invoked and the log file does not
yet exist, the header row is written first, unconditionally; if cost
calculation then fails, the error propagates and the file is left with
the header row but no record row (it is NOT left unchanged); only if
cost calculation succeeds does the record row follow the header. -/
theorem log_llm_call_fresh_file (a : LogArgs) :
    (MODEL_PRICING a.model = none →
       log_llm_call a none =
         (some [headerRow], .error (.unknownModel a.model))) ∧
    (∀ p : Pricing, MODEL_PRICING a.model = some p →
       log_llm_call a none =
         (some [headerRow,
                usageRow a ((a.input_tokens : ℚ) / 1000000 * p.input)
                  ((a.output_tokens : ℚ) / 1000000 * p.output)
                  ((a.input_tokens : ℚ) / 1000000 * p.input +
                   (a.output_tokens : ℚ) / 1000000 * p.output)],
          .ok ())) := by
  constructor
  · intro h
    rw [log_llm_call_unknown a none h]
    rfl
  · intro p h
    rw [log_llm_call_known a none p h]
    rfl

/-- Witness for C2 amended: both branches at concrete inputs. -/
theorem log_llm_call_fresh_file_witness :
    log_llm_call ⟨"t", "no-such-model", "f", "in", "out", 2, 3, 4⟩ none =
      (some [headerRow], .error (.unknownModel "no-such-model")) ∧
    log_llm_call ⟨"t", "gpt-4o-mini", "f", "in", "out", 1000, 500, 4⟩ none =
      (some [headerRow,
             usageRow ⟨"t", "gpt-4o-mini", "f", "in", "out", 1000, 500, 4⟩
               (((1000 : ℤ) : ℚ) / 1000000 * 0.15)
               (((500 : ℤ) : ℚ) / 1000000 * 0.60)
               (((1000 : ℤ) : ℚ) / 1000000 * 0.15 +
                ((500 : ℤ) : ℚ) / 1000000 * 0.60)],
       .ok ()) :=
  ⟨(log_llm_call_fresh_file ⟨"t", "no-such-model", "f", "in", "out", 2, 3, 4⟩).1
     (by rfl),
   (log_llm_call_fresh_file ⟨"t", "gpt-4o-mini", "f", "in", "out", 1000, 500, 4⟩).2
     ⟨0.15, 0.60⟩ (by rfl)⟩

end Llm

namespace Llm

/-! ## Claim C8 -/

/-- C8: after `clear_llm_log` followed by exactly one successful
completion, the log file contains exactly one header row and one data
row, the columns in the exact fixed order `timestamp, model,
function_name, input_content, output_content, input_tokens,
output_tokens, total_tokens, latency_ms, input_cost, output_cost,
total_cost`, and the three cost fields rendered as fixed
6-decimal-place strings (`formatFixed6` always produces exactly six
digits after the decimal point). -/
theorem reset_then_one_success (f0 : LogFile) (message model ts : String)
    (resp : PlainRemote) (latency_ms : ℤ) (p : Pricing)
    (hp : MODEL_PRICING model = some p) :
    get_completion message model (.ok resp) ts latency_ms
        (clear_llm_log f0) =
      (some [["timestamp", "model", "function_name", "input_content",
              "output_content", "input_tokens", "output_tokens",
              "total_tokens", "latency_ms", "input_cost", "output_cost",
              "total_cost"],
             [ts, model, "get_completion", message, resp.content,
              toString resp.usage.prompt_tokens,
              toString resp.usage.completion_tokens,
              toString (resp.usage.prompt_tokens + resp.usage.completion_tokens),
              toString latency_ms,
              formatFixed6 ((resp.usage.prompt_tokens : ℚ) / 1000000 * p.input),
              formatFixed6 ((resp.usage.completion_tokens : ℚ) / 1000000 * p.output),
              formatFixed6 ((resp.usage.prompt_tokens : ℚ) / 1000000 * p.input +
                  (resp.usage.completion_tokens : ℚ) / 1000000 * p.output)]],
       .ok resp.content) ∧
    (∀ x : ℚ, ∃ s t : String,
       formatFixed6 x = s ++ "." ++ t ∧ t.length = 6) := by
  constructor
  · rw [clear_llm_log_eq_none f0]
    simp only [get_completion]
    rw [log_llm_call_known
      ⟨ts, model, "get_completion", message, resp.content,
       resp.usage.prompt_tokens, resp.usage.completion_tokens, latency_ms⟩
      none p hp]
    rfl
  · intro x
    refine ⟨(if roundHalfEven (x * 1000000) < 0 then "-" else "") ++
        toString ((roundHalfEven (x * 1000000)).natAbs / 1000000),
      sixFracDigits ((roundHalfEven (x * 1000000)).natAbs % 1000000),
      rfl, rfl⟩

/-- `roundHalfEven` at an integer is that integer. -/
lemma roundHalfEven_intCast (n : ℤ) : roundHalfEven ((n : ℤ) : ℚ) = n := by
  unfold roundHalfEven
  simp [Rat.num_intCast, Rat.den_intCast, Int.fdiv_one]

/-- Evaluation of `formatFixed6` when the scaled value is an integer. -/
lemma formatFixed6_int (x : ℚ) (n : ℤ) (h : x * 1000000 = (n : ℚ)) :
    formatFixed6 x =
      (if n < 0 then "-" else "") ++ toString (n.natAbs / 1000000) ++ "." ++
        sixFracDigits (n.natAbs % 1000000) := by
  unfold formatFixed6
  rw [h, roundHalfEven_intCast]

/-- Witness for C8: reset, then one completion on "gpt-4o-mini" with
1000 input and 500 output tokens; also checks the 6-decimal shape at 0. -/
theorem reset_then_one_success_witness :
    (get_completion "m" "gpt-4o-mini" (.ok ⟨"out", ⟨1000, 500⟩⟩) "ts" 7
        (clear_llm_log (some [["junk"]]))).1 =
      some [["timestamp", "model", "function_name", "input_content",
             "output_content", "input_tokens", "output_tokens",
             "total_tokens", "latency_ms", "input_cost", "output_cost",
             "total_cost"],
            ["ts", "gpt-4o-mini", "get_completion", "m", "out", "1000",
             "500", "1500", "7", "0.000150", "0.000300", "0.000450"]] ∧
    ∃ s t : String, formatFixed6 0 = s ++ "." ++ t ∧ t.length = 6 := by
  have h := reset_then_one_success (some [["junk"]]) "m" "gpt-4o-mini" "ts"
    ⟨"out", ⟨1000, 500⟩⟩ 7 ⟨0.15, 0.60⟩ (by rfl)
  refine ⟨?_, h.2 0⟩
  rw [h.1]
  have e1 : formatFixed6 (((1000 : ℤ) : ℚ) / 1000000 * (0.15 : ℚ)) =
      "0.000150" := by
    rw [formatFixed6_int _ 150 (by norm_num)]
    decide
  have e2 : formatFixed6 (((500 : ℤ) : ℚ) / 1000000 * (0.60 : ℚ)) =
      "0.000300" := by
    rw [formatFixed6_int _ 300 (by norm_num)]
    decide
  have e3 : formatFixed6 (((1000 : ℤ) : ℚ) / 1000000 * (0.15 : ℚ) +
      ((500 : ℤ) : ℚ) / 1000000 * (0.60 : ℚ)) = "0.000450" := by
    rw [formatFixed6_int _ 450 (by norm_num)]
    decide
  simp only [e1, e2, e3]
  decide

end Llm

namespace Llm

/-! ## Retry-loop lemmas -/

/-- A successful attempt (parsed response, no refusal, known model):
one data row is appended and the parsed value returned. -/
lemma runAttempt_success {T : Type} (message function_name model : String)
    (render : T → String) (v : T) (usage : Usage) (ts : String) (lat : ℤ)
    (p : Pricing) (hp : MODEL_PRICING model = some p) (f : LogFile) :
    runAttempt message function_name model render
        (.response none v usage ts lat) f =
      (appendRow f
         (usageRow ⟨ts, model, function_name, message, render v,
            usage.prompt_tokens, usage.completion_tokens, lat⟩
            ((usage.prompt_tokens : ℚ) / 1000000 * p.input)
            ((usage.completion_tokens : ℚ) / 1000000 * p.output)
            ((usage.prompt_tokens : ℚ) / 1000000 * p.input +
             (usage.completion_tokens : ℚ) / 1000000 * p.output)),
       .ok v) := by
  simp only [runAttempt]
  rw [log_llm_call_known
    ⟨ts, model, function_name, message, render v,
     usage.prompt_tokens, usage.completion_tokens, lat⟩ f p hp]

/-- A failing attempt returns the error given by `attemptError`; the
file is either untouched (raised call, refusal) or has just the header
created (unknown model discovered during logging). -/
lemma runAttempt_error {T : Type} (message function_name model : String)
    (render : T → String) (a : AttemptOutcome T) (f : LogFile) (e : LlmError)
    (h : attemptError model a = some e) :
    runAttempt message function_name model render a f = (f, .error e) ∨
    runAttempt message function_name model render a f =
      (ensureHeader f, .error e) := by
  cases a with
  | exn e' =>
    left
    simp only [attemptError, Option.some.injEq] at h
    subst h
    rfl
  | response refusal parsed usage ts lat =>
    cases refusal with
    | some msg =>
      left
      simp only [attemptError, Option.some.injEq] at h
      subst h
      rfl
    | none =>
      right
      simp only [attemptError] at h
      cases hm : MODEL_PRICING model with
      | some p =>
        rw [hm] at h
        simp at h
      | none =>
        rw [hm] at h
        simp only [Option.some.injEq] at h
        subst h
        simp only [runAttempt]
        rw [log_llm_call_unknown
          ⟨ts, model, function_name, message, render parsed,
           usage.prompt_tokens, usage.completion_tokens, lat⟩ f hm]

/-- With a known model, a failing attempt leaves the file untouched. -/
lemma runAttempt_error_known {T : Type} (message function_name model : String)
    (render : T → String) (a : AttemptOutcome T) (f : LogFile) (e : LlmError)
    (p : Pricing) (hp : MODEL_PRICING model = some p)
    (h : attemptError model a = some e) :
    runAttempt message function_name model render a f = (f, .error e) := by
  cases a with
  | exn e' =>
    simp only [attemptError, Option.some.injEq] at h
    subst h
    rfl
  | response refusal parsed usage ts lat =>
    cases refusal with
    | some msg =>
      simp only [attemptError, Option.some.injEq] at h
      subst h
      rfl
    | none =>
      simp only [attemptError] at h
      rw [hp] at h
      simp at h

/-- An attempt with no failure is a parsed, non-refused response under a
known model. -/
lemma attemptError_none {T : Type} {model : String} {a : AttemptOutcome T}
    (h : attemptError model a = none) :
    ∃ (p : Pricing) (v : T) (usage : Usage) (ts : String) (lat : ℤ),
      MODEL_PRICING model = some p ∧ a = .response none v usage ts lat := by
  cases a with
  | exn e => simp [attemptError] at h
  | response refusal parsed usage ts lat =>
    cases refusal with
    | some msg => simp [attemptError] at h
    | none =>
      rcases hm : MODEL_PRICING model with _ | p
      · simp only [attemptError] at h
        rw [hm] at h
        simp at h
      · exact ⟨p, parsed, usage, ts, lat, rfl, rfl⟩

/-- One step of the retry loop when the attempt fails: with zero
attempts remaining the failure is re-raised; otherwise the loop
continues from the post-attempt file state. -/
lemma structuredGo_of_error {T : Type} (message function_name model : String)
    (render : T → String) (outcome : ℕ → AttemptOutcome T) (attempt : ℕ)
    (f f1 : LogFile) (e : LlmError)
    (h : runAttempt message function_name model render (outcome attempt) f =
      (f1, .error e)) :
    structuredGo message function_name model render outcome attempt 0 f =
      (f1, .error e) ∧
    (∀ r : ℕ,
       structuredGo message function_name model render outcome attempt
           (r + 1) f =
         structuredGo message function_name model render outcome (attempt + 1)
           r f1) := by
  constructor
  · rw [structuredGo, h]
  · intro r
    rw [structuredGo, h]

/-- One step of the retry loop when the attempt succeeds: the loop
returns immediately, whatever the remaining budget. -/
lemma structuredGo_of_ok {T : Type} (message function_name model : String)
    (render : T → String) (outcome : ℕ → AttemptOutcome T) (attempt : ℕ)
    (f f1 : LogFile) (v : T)
    (h : runAttempt message function_name model render (outcome attempt) f =
      (f1, .ok v)) (remaining : ℕ) :
    structuredGo message function_name model render outcome attempt remaining
      f = (f1, .ok v) := by
  rw [structuredGo, h]

end Llm

namespace Llm

/-- If every attempt from `attempt` to `attempt + remaining` fails, the
loop returns the last attempt's error, and the file is at most
header-created. -/
lemma structuredGo_all_fail {T : Type} (message function_name model : String)
    (render : T → String) (outcome : ℕ → AttemptOutcome T) :
    ∀ (remaining attempt : ℕ) (f : LogFile) (e : LlmError),
      (∀ k, k < remaining → attemptError model (outcome (attempt + k)) ≠ none) →
      attemptError model (outcome (attempt + remaining)) = some e →
      (structuredGo message function_name model render outcome attempt
          remaining f).2 = .error e ∧
      ((structuredGo message function_name model render outcome attempt
          remaining f).1 = f ∨
       (structuredGo message function_name model render outcome attempt
          remaining f).1 = ensureHeader f) := by
  intro remaining
  induction remaining with
  | zero =>
    intro attempt f e _ hlast
    rw [Nat.add_zero] at hlast
    rcases runAttempt_error message function_name model render
        (outcome attempt) f e hlast with h | h
    · rw [(structuredGo_of_error message function_name model render outcome
        attempt f f e h).1]
      exact ⟨rfl, Or.inl rfl⟩
    · rw [(structuredGo_of_error message function_name model render outcome
        attempt f (ensureHeader f) e h).1]
      exact ⟨rfl, Or.inr rfl⟩
  | succ r ih =>
    intro attempt f e hfail hlast
    have h0 : attemptError model (outcome attempt) ≠ none := by
      have := hfail 0 (Nat.succ_pos r)
      rwa [Nat.add_zero] at this
    obtain ⟨e0, he0⟩ := Option.ne_none_iff_exists'.mp h0
    have hfail' : ∀ k, k < r →
        attemptError model (outcome (attempt + 1 + k)) ≠ none := by
      intro k hk
      have := hfail (k + 1) (by omega)
      rwa [show attempt + (k + 1) = attempt + 1 + k by omega] at this
    have hlast' : attemptError model (outcome (attempt + 1 + r)) = some e := by
      rwa [show attempt + (r + 1) = attempt + 1 + r by omega] at hlast
    rcases runAttempt_error message function_name model render
        (outcome attempt) f e0 he0 with h | h
    · rw [(structuredGo_of_error message function_name model render outcome
        attempt f f e0 h).2 r]
      exact ih (attempt + 1) f e hfail' hlast'
    · rw [(structuredGo_of_error message function_name model render outcome
        attempt f (ensureHeader f) e0 h).2 r]
      rcases ih (attempt + 1) (ensureHeader f) e hfail' hlast' with ⟨h2, h3 | h3⟩
      · exact ⟨h2, Or.inr h3⟩
      · rw [ensureHeader_idem] at h3
        exact ⟨h2, Or.inr h3⟩

/-- With a known model, if attempts `attempt .. attempt + j - 1` fail
and attempt `attempt + j` succeeds within the budget, the loop behaves
exactly as that single successful attempt run on the original file. -/
lemma structuredGo_success_at {T : Type} (message function_name model : String)
    (render : T → String) (outcome : ℕ → AttemptOutcome T) (p : Pricing)
    (hp : MODEL_PRICING model = some p) :
    ∀ (j remaining attempt : ℕ) (f : LogFile), j ≤ remaining →
      (∀ k, k < j → attemptError model (outcome (attempt + k)) ≠ none) →
      attemptError model (outcome (attempt + j)) = none →
      structuredGo message function_name model render outcome attempt
          remaining f =
        runAttempt message function_name model render (outcome (attempt + j))
          f := by
  intro j
  induction j with
  | zero =>
    intro remaining attempt f _ _ hsucc
    rw [Nat.add_zero] at hsucc ⊢
    obtain ⟨p', v, usage, ts, lat, hp', ha⟩ := attemptError_none hsucc
    have hr : runAttempt message function_name model render (outcome attempt)
        f = (appendRow f
          (usageRow ⟨ts, model, function_name, message, render v,
             usage.prompt_tokens, usage.completion_tokens, lat⟩
             ((usage.prompt_tokens : ℚ) / 1000000 * p'.input)
             ((usage.completion_tokens : ℚ) / 1000000 * p'.output)
             ((usage.prompt_tokens : ℚ) / 1000000 * p'.input +
              (usage.completion_tokens : ℚ) / 1000000 * p'.output)),
         .ok v) := by
      rw [ha]
      exact runAttempt_success message function_name model render v usage ts
        lat p' hp' f
    rw [structuredGo_of_ok message function_name model render outcome attempt
      f _ v hr remaining, hr]
  | succ j ih =>
    intro remaining attempt f hle hfail hsucc
    have h0 : attemptError model (outcome attempt) ≠ none := by
      have := hfail 0 (Nat.succ_pos j)
      rwa [Nat.add_zero] at this
    obtain ⟨e0, he0⟩ := Option.ne_none_iff_exists'.mp h0
    have hr := runAttempt_error_known message function_name model render
      (outcome attempt) f e0 p hp he0
    obtain ⟨r, rfl⟩ : ∃ r, remaining = r + 1 := ⟨remaining - 1, by omega⟩
    rw [(structuredGo_of_error message function_name model render outcome
      attempt f f e0 hr).2 r]
    have hfail' : ∀ k, k < j →
        attemptError model (outcome (attempt + 1 + k)) ≠ none := by
      intro k hk
      have := hfail (k + 1) (by omega)
      rwa [show attempt + (k + 1) = attempt + 1 + k by omega] at this
    have hsucc' : attemptError model (outcome (attempt + 1 + j)) = none := by
      rwa [show attempt + (j + 1) = attempt + 1 + j by omega] at hsucc
    rw [ih r (attempt + 1) f (by omega) hfail' hsucc',
      show attempt + 1 + j = attempt + (j + 1) by omega]

end Llm

namespace Llm

/-! ## Claim C3 -/

/-- C3: for every `max_retries ≥ 0`, if all `max_retries + 1` attempts
of `get_completion_structured` fail, no UsageRecord is appended (the
file is unchanged, or at most has the header freshly created — never a
data row) and the error raised to the caller is exactly the final
attempt's failure, propagated as-is. -/
theorem structured_all_attempts_fail {T : Type}
    (message function_name model : String) (render : T → String)
    (outcome : ℕ → AttemptOutcome T) (max_retries : ℕ) (log_file : LogFile)
    (e : LlmError)
    (hfail : ∀ k, k < max_retries → attemptError model (outcome k) ≠ none)
    (hlast : attemptError model (outcome max_retries) = some e) :
    (get_completion_structured message function_name model render outcome
        max_retries log_file).2 = .error e ∧
    ((get_completion_structured message function_name model render outcome
        max_retries log_file).1 = log_file ∨
     (get_completion_structured message function_name model render outcome
        max_retries log_file).1 = ensureHeader log_file) := by
  have h := structuredGo_all_fail message function_name model render outcome
    max_retries 0 log_file e
  simp only [Nat.zero_add] at h
  exact h hfail hlast

/-- Witness for C3: two attempts (`max_retries = 1`), the first a
validation failure, the second a remote failure; the remote failure of
the final attempt is raised and the file is untouched. -/
theorem structured_all_attempts_fail_witness :
    (get_completion_structured "m" "f" "gpt-4o-mini" id
        (fun n => if n = 0 then AttemptOutcome.exn (.validation "truncated")
                  else AttemptOutcome.exn (.remote "boom"))
        1 (some [headerRow])).2 = .error (.remote "boom") ∧
    ((get_completion_structured "m" "f" "gpt-4o-mini" id
        (fun n => if n = 0 then AttemptOutcome.exn (.validation "truncated")
                  else AttemptOutcome.exn (.remote "boom"))
        1 (some [headerRow])).1 = some [headerRow] ∨
     (get_completion_structured "m" "f" "gpt-4o-mini" id
        (fun n => if n = 0 then AttemptOutcome.exn (.validation "truncated")
                  else AttemptOutcome.exn (.remote "boom"))
        1 (some [headerRow])).1 = ensureHeader (some [headerRow])) :=
  structured_all_attempts_fail "m" "f" "gpt-4o-mini" id
    (fun n => if n = 0 then AttemptOutcome.exn (.validation "truncated")
              else AttemptOutcome.exn (.remote "boom"))
    1 (some [headerRow]) (.remote "boom")
    (by
      intro k hk
      have hk0 : k = 0 := by omega
      subst hk0
      simp [attemptError])
    (by rfl)

/-! ## Claim C4 -/

/-- C4 counterexample: with an unknown model, an attempt whose response
parses into the schema and is not a refusal still appends no
UsageRecord and does not return the parsed instance — the `ValueError`
from the logging step makes the whole call fail — refuting the claim as
universally stated. -/
theorem structured_success_unknown_model_cex :
    get_completion_structured "m" "f" "bad-model" id
        (fun _ => AttemptOutcome.response none "v" ⟨1, 2⟩ "t" 3) 0 none =
      (some [headerRow], .error (.unknownModel "bad-model")) := by
  rfl

/-- C4 amended: provided the model is present in the pricing table, if
some attempt of `get_completion_structured` succeeds (parses and is not
a refusal) and all prior attempts failed, then exactly one UsageRecord
is appended — for that winning attempt only, with that attempt's token
counts and the caller-supplied function_name — the parsed instance is
returned, and prior failed attempts contribute no ledger entries (the
file differs from the original by exactly that one appended row). -/
theorem structured_success_logs_winning_attempt {T : Type}
    (message function_name model : String) (p : Pricing)
    (hp : MODEL_PRICING model = some p) (render : T → String)
    (outcome : ℕ → AttemptOutcome T) (max_retries n : ℕ) (log_file : LogFile)
    (hn : n ≤ max_retries)
    (hprior : ∀ k, k < n → attemptError model (outcome k) ≠ none)
    (hsucc : attemptError model (outcome n) = none) :
    ∃ (v : T) (usage : Usage) (ts : String) (lat : ℤ),
      outcome n = .response none v usage ts lat ∧
      get_completion_structured message function_name model render outcome
          max_retries log_file =
        (appendRow log_file
           (usageRow ⟨ts, model, function_name, message, render v,
              usage.prompt_tokens, usage.completion_tokens, lat⟩
              ((usage.prompt_tokens : ℚ) / 1000000 * p.input)
              ((usage.completion_tokens : ℚ) / 1000000 * p.output)
              ((usage.prompt_tokens : ℚ) / 1000000 * p.input +
               (usage.completion_tokens : ℚ) / 1000000 * p.output)),
         .ok v) := by
  obtain ⟨_, v, usage, ts, lat, _, ha⟩ := attemptError_none hsucc
  refine ⟨v, usage, ts, lat, ha, ?_⟩
  have hgo := structuredGo_success_at message function_name model render
    outcome p hp n max_retries 0 log_file hn
    (by simpa using hprior) (by simpa using hsucc)
  simp only [Nat.zero_add] at hgo
  unfold get_completion_structured
  rw [hgo, ha]
  exact runAttempt_success message function_name model render v usage ts lat
    p hp log_file

/-- Witness for C4 amended: attempt 0 fails validation, attempt 1
parses on "gpt-4o-mini"; exactly one row for attempt 1 is appended. -/
theorem structured_success_logs_winning_attempt_witness :
    ∃ (v : String) (usage : Usage) (ts : String) (lat : ℤ),
      (fun n => if n = 0 then AttemptOutcome.exn (.validation "bad")
                else AttemptOutcome.response none "v" (⟨1000, 500⟩ : Usage)
                  "t1" 9) 1 = AttemptOutcome.response none v usage ts lat ∧
      get_completion_structured "m" "parse_hand" "gpt-4o-mini" id
          (fun n => if n = 0 then AttemptOutcome.exn (.validation "bad")
                    else AttemptOutcome.response none "v" (⟨1000, 500⟩ : Usage)
                      "t1" 9) 2 none =
        (appendRow none
           (usageRow ⟨ts, "gpt-4o-mini", "parse_hand", "m", id v,
              usage.prompt_tokens, usage.completion_tokens, lat⟩
              ((usage.prompt_tokens : ℚ) / 1000000 * (0.15 : ℚ))
              ((usage.completion_tokens : ℚ) / 1000000 * (0.60 : ℚ))
              ((usage.prompt_tokens : ℚ) / 1000000 * (0.15 : ℚ) +
               (usage.completion_tokens : ℚ) / 1000000 * (0.60 : ℚ))),
         .ok v) :=
  structured_success_logs_winning_attempt "m" "parse_hand" "gpt-4o-mini"
    ⟨0.15, 0.60⟩ (by rfl) id
    (fun n => if n = 0 then AttemptOutcome.exn (.validation "bad")
              else AttemptOutcome.response none "v" (⟨1000, 500⟩ : Usage)
                "t1" 9)
    2 1 none (by omega)
    (by
      intro k hk
      have hk0 : k = 0 := by omega
      subst hk0
      simp [attemptError])
    (by rfl)

/-! ## Claim C1 -/

/-- C1 counterexample: with `max_retries = 1` and an unknown model, the
`ValueError` raised by `calculate_cost` during attempt 0's logging step
does NOT surface immediately — a further attempt IS made, and the
caller sees attempt 1's distinct remote error instead. -/
theorem unknown_model_error_retried_cex :
    (get_completion_structured "m" "f" "bad-model" id
        (fun n => if n = 0 then AttemptOutcome.response none "v" ⟨1, 1⟩ "t0" 5
                  else AttemptOutcome.exn (.remote "attempt-1"))
        1 none).2 = .error (.remote "attempt-1") ∧
    (Except.error (.remote "attempt-1") : Except LlmError String) ≠
      Except.error (.unknownModel "bad-model") := by
  exact ⟨rfl, by simp⟩

/-- C1 amended: the unknown-model `ValueError` raised during the
logging step of an attempt aborts that attempt's logging after the
header-creation step, but it is caught by the retry handler like any
other failure: with attempts remaining the loop retries from the
post-logging file state, and the error surfaces to the caller only when
it occurs on the final attempt. -/
theorem unknown_model_logging_error_retried {T : Type}
    (message function_name model : String) (render : T → String)
    (outcome : ℕ → AttemptOutcome T) (attempt : ℕ) (log_file : LogFile)
    (v : T) (usage : Usage) (ts : String) (lat : ℤ)
    (hm : MODEL_PRICING model = none)
    (hout : outcome attempt = .response none v usage ts lat) :
    (∀ remaining : ℕ,
       structuredGo message function_name model render outcome attempt
           (remaining + 1) log_file =
         structuredGo message function_name model render outcome (attempt + 1)
           remaining (ensureHeader log_file)) ∧
    structuredGo message function_name model render outcome attempt 0
        log_file =
      (ensureHeader log_file, .error (.unknownModel model)) := by
  have hr : runAttempt message function_name model render (outcome attempt)
      log_file = (ensureHeader log_file, .error (.unknownModel model)) := by
    rw [hout]
    simp only [runAttempt]
    rw [log_llm_call_unknown
      ⟨ts, model, function_name, message, render v,
       usage.prompt_tokens, usage.completion_tokens, lat⟩ log_file hm]
  have h := structuredGo_of_error message function_name model render outcome
    attempt log_file (ensureHeader log_file) (.unknownModel model) hr
  exact ⟨h.2, h.1⟩

/-- Witness for C1 amended: a concrete parsed-but-unloggable attempt on
"bad-model" retried once, and the same attempt as the final one. -/
theorem unknown_model_logging_error_retried_witness :
    (structuredGo "m" "f" "bad-model" id
        (fun n => if n = 0 then AttemptOutcome.response none "v" ⟨1, 1⟩ "t0" 5
                  else AttemptOutcome.exn (.remote "attempt-1"))
        0 (0 + 1) none =
      structuredGo "m" "f" "bad-model" id
        (fun n => if n = 0 then AttemptOutcome.response none "v" ⟨1, 1⟩ "t0" 5
                  else AttemptOutcome.exn (.remote "attempt-1"))
        (0 + 1) 0 (ensureHeader none)) ∧
    structuredGo "m" "f" "bad-model" id
        (fun n => if n = 0 then AttemptOutcome.response none "v" ⟨1, 1⟩ "t0" 5
                  else AttemptOutcome.exn (.remote "attempt-1"))
        0 0 none =
      (ensureHeader none, .error (.unknownModel "bad-model")) := by
  have h := unknown_model_logging_error_retried "m" "f" "bad-model" id
    (fun n => if n = 0 then AttemptOutcome.response none "v" ⟨1, 1⟩ "t0" 5
              else AttemptOutcome.exn (.remote "attempt-1"))
    0 none "v" ⟨1, 1⟩ "t0" 5 (by rfl) (by rfl)
  exact ⟨h.1 0, h.2⟩

end Llm
